import Mathlib

/-!
Shallow embedding of the task submission/approval core of the `botopen`
repository, together with theorems settling the behavioural claims about
it.  The embedded code lives in:

* `utils/date_utils.py`   — date validation / conversion / duration formatting
* `services/openproject_service.py`
                           — `OpenProjectRepository` (cached project listing,
                             task creation payload) and `TaskService`
                             (the pending-task registry)
* `ui/modals.py`           — `TaskDetailsModal.on_submit` (submission pipeline)
* `ui/selects.py`          — `ProjectSelectView.refresh_projects`
* `cogs/task_commands.py`  — `handle_approval` (the decision handler)

Python `dict`s holding task data are embedded as a structure whose
optional keys are `Option`-valued; `time.time()` is an explicit natural
number parameter; network calls are explicit parameters (their outcome)
and explicit entries of an effect trace (their occurrence).  Numeric
values flowing through `format_duration` are embedded as rationals with
Python's `int(...)` truncation made explicit.
-/

namespace Botopen

/-! ### Python helpers -/

/-- Python `int(x)` on a float/number: truncation toward zero. -/
def pytrunc (q : ℚ) : ℤ := if 0 ≤ q then ⌊q⌋ else ⌈q⌉

/-- Truthiness of an optional string drawn from `dict.get(key)`:
`None` and the empty string are falsy, as in Python. -/
def pyTruthyOpt (o : Option String) : Bool :=
  match o with
  | none => false
  | some s => s ≠ ""

/-- The list `l` with its first `'.'` removed: Python `s.replace('.', '', 1)`. -/
def removeFirstDot : List Char → List Char
  | [] => []
  | c :: rest => if c = '.' then rest else c :: removeFirstDot rest

/-- Python `s.replace('.', '', 1).isdigit()` (ASCII digits): the numeric
check shared by `format_duration` and the estimate validation of
`TaskDetailsModal.on_submit`.  It is `false` for the empty string. -/
def pyNumericStr (s : String) : Bool :=
  let l := removeFirstDot s.toList
  !l.isEmpty && l.all Char.isDigit

/-- Numeric value of an ASCII digit character. -/
def digitVal (c : Char) : ℕ := c.toNat - 48

/-- Value of a string of ASCII digits, as Python `int` reads it. -/
def digitsToNat (l : List Char) : ℕ :=
  l.foldl (fun a c => 10 * a + digitVal c) 0

/-- Value of a digits-and-at-most-one-dot string, as Python `float`
reads it (exact, as a rational). -/
def parseDecimal (s : String) : ℚ :=
  match s.splitOn "." with
  | [w] => (digitsToNat w.toList : ℚ)
  | [w, f] => (digitsToNat w.toList : ℚ) + (digitsToNat f.toList : ℚ) / (10 : ℚ) ^ f.length
  | _ => 0

/-! ### `utils/date_utils.py` -/

/-- Gregorian leap-year rule, as implemented by Python's `datetime`. -/
def isLeapYear (y : ℕ) : Bool := (y % 4 = 0 && y % 100 ≠ 0) || y % 400 = 0

/-- Number of days of month `m` of year `y`. -/
def daysInMonth (m y : ℕ) : ℕ :=
  if m = 2 then (if isLeapYear y then 29 else 28)
  else if m = 4 ∨ m = 6 ∨ m = 9 ∨ m = 11 then 30
  else 31

/-- Whether `datetime.datetime(y, m, d)` succeeds (`MINYEAR = 1`,
`MAXYEAR = 9999`). -/
def validDate (d m y : ℕ) : Bool :=
  1 ≤ y && y ≤ 9999 && 1 ≤ m && m ≤ 12 && 1 ≤ d && d ≤ daysInMonth m y

/-- Embeds `date_utils.validate_date`: empty input is valid (optional field);
otherwise the input must be `DD/MM/YYYY` (regex) and denote a real
calendar date. -/
def validate_date (s : String) : Bool :=
  if s = "" then true
  else
    match s.toList with
    | [d1, d2, s1, m1, m2, s2, y1, y2, y3, y4] =>
      if s1 = '/' && s2 = '/' && [d1, d2, m1, m2, y1, y2, y3, y4].all Char.isDigit then
        validDate (10 * digitVal d1 + digitVal d2) (10 * digitVal m1 + digitVal m2)
          (1000 * digitVal y1 + 100 * digitVal y2 + 10 * digitVal y3 + digitVal y4)
      else false
    | _ => false

/-- Python `int(...)` on the three `/`-separated components, `(d, m, y)`;
`none` when Python would raise inside the `try` block of
`compare_dates` (wrong arity, empty or non-digit component —
a parsable-but-invalid component such as `-3` also ends in the same
`(False, format-error)` outcome, so mapping it to `none` is
observation-equivalent). -/
def parseDateTriple (s : String) : Option (ℕ × ℕ × ℕ) :=
  match s.splitOn "/" with
  | [d, m, y] =>
    if !d.isEmpty && d.toList.all Char.isDigit
        && !m.isEmpty && m.toList.all Char.isDigit
        && !y.isEmpty && y.toList.all Char.isDigit then
      some (digitsToNat d.toList, digitsToNat m.toList, digitsToNat y.toList)
    else none
  | _ => none

/-- Strict calendar order on `(d, m, y)` triples, most significant
component (the year) first — `datetime` comparison by date. -/
def dateLt : (ℕ × ℕ × ℕ) → (ℕ × ℕ × ℕ) → Bool
  | (d1, m1, y1), (d2, m2, y2) =>
    y1 < y2 || (y1 = y2 && (m1 < m2 || (m1 = m2 && d1 < d2)))

/-- Embeds `date_utils.compare_dates`: `(True, "")` when either date is empty
or `end ≥ start`; `(False, message)` when `end < start` or a component
fails to parse into a valid `datetime`. -/
def compare_dates (start_d end_d : String) : Bool × String :=
  if start_d = "" ∨ end_d = "" then (true, "")
  else
    match parseDateTriple start_d, parseDateTriple end_d with
    | some s, some e =>
      if validDate s.1 s.2.1 s.2.2 && validDate e.1 e.2.1 e.2.2 then
        if dateLt e s then
          (false, "A data de término não pode ser anterior à data de início.")
        else (true, "")
      else (false, "Formato de data inválido. Use DD/MM/AAAA.")
    | _, _ => (false, "Formato de data inválido. Use DD/MM/AAAA.")

/-- Input of `date_utils.format_duration`: a number or its string form. -/
inductive PyVal where
  | num (q : ℚ)
  | str (s : String)
deriving DecidableEq

/-- The numeric tail of `format_duration`:
`horas_inteiras = int(hours)`, `minutos = int((hours - horas_inteiras) * 60)`,
minutes segment emitted only when `minutos > 0`. -/
def formatHours (q : ℚ) : Option String :=
  let horas_inteiras : ℤ := pytrunc q
  let minutos : ℤ := pytrunc ((q - horas_inteiras) * 60)
  if minutos > 0 then some s!"PT{horas_inteiras}H{minutos}M"
  else some s!"PT{horas_inteiras}H"

/-- Embeds `date_utils.format_duration`: a string input must be nonempty and
pass the digits-with-at-most-one-dot check, and is then converted and
formatted like a number. -/
def format_duration : PyVal → Option String
  | .num q => formatHours q
  | .str s =>
    if s = "" then none
    else if pyNumericStr s = false then none
    else formatHours (parseDecimal s)

/-! ### Data model: task data and the pending-task registry
(`services/openproject_service.py`, `TaskService`) -/

/-- The task-details `dict` built by `TaskDetailsModal.on_submit` and
consumed by `handle_approval` / `create_task`.  Keys that the code reads
with a bare `dict.get(key)` (so that they may be absent) are
`Option`-valued; keys read with `dict.get(key, '')` carry the empty
string when absent, which the code cannot distinguish from a present
empty value. -/
structure TaskData where
  nome_da_tarefa : String := ""
  descricao : String := ""
  estimativa : String := ""
  data_inicio : String := ""
  data_fim : String := ""
  project_id : String := ""
  project_name : String := ""
  solicitante_id : ℕ := 0
  solicitante_nome : Option String := none
  analista_nome : String := ""
  aprovador_nome : Option String := none
  version_id : Option String := none
  version_name : Option String := none
  data_inicio_formatada : String := ""
  data_fim_formatada : String := ""
deriving DecidableEq

/-- Embeds `TaskService.pending_tasks`: a Python `dict` keyed by submission id,
embedded as an insertion-ordered association list without duplicate
keys. -/
abbrev Registry := List (String × TaskData)

/-- Embeds `TaskService.get_pending_task`: `self.pending_tasks.get(task_id)`. -/
def get_pending_task (r : Registry) (task_id : String) : Option TaskData :=
  match r.find? (fun p => p.1 = task_id) with
  | some p => some p.2
  | none => none

/-- Embeds `TaskService.add_pending_task`:
`self.pending_tasks[task_id] = task_details` — dict assignment replaces
the value in place when the key exists and appends otherwise. -/
def add_pending_task (r : Registry) (task_id : String) (d : TaskData) : Registry :=
  if r.any (fun p => p.1 = task_id) then
    r.map (fun p => if p.1 = task_id then (task_id, d) else p)
  else r ++ [(task_id, d)]

/-- Embeds `TaskService.remove_pending_task`:
`if task_id in self.pending_tasks: del self.pending_tasks[task_id]`. -/
def remove_pending_task (r : Registry) (task_id : String) : Registry :=
  r.filter (fun p => p.1 ≠ task_id)

/-! ### `OpenProjectRepository`: cached project listing -/

/-- A project element of the remote `GET /api/v3/projects` listing, with
the fields `get_projects` reads. -/
structure RawProject where
  id : ℕ
  name : String
  identifier : String
  href : String
  active : Bool
deriving DecidableEq

/-- A cached project record as `get_projects` builds it. -/
structure Project where
  id : ℕ
  name : String
  identifier : String
  href : String
deriving DecidableEq

/-- Embeds `config.CACHE_DURATION` (seconds). -/
def CACHE_DURATION : ℕ := 3600

/-- Embeds `config.ITEMS_PER_PAGE`. -/
def ITEMS_PER_PAGE : ℕ := 10

/-- The `active`-filter-and-project loop of
`OpenProjectRepository.get_projects`. -/
def filterActive (remote : List RawProject) : List Project :=
  (remote.filter (fun p => p.active)).map
    (fun p => { id := p.id, name := p.name, identifier := p.identifier, href := p.href })

/-- The mutable state of an `OpenProjectRepository`:
`_projects_cache` and `_cache_timestamp`. -/
structure RepoState where
  projects_cache : List Project
  cache_timestamp : ℕ
deriving DecidableEq

/-- The state of a freshly constructed repository:
`_projects_cache = []`, `_cache_timestamp = 0`. -/
def freshRepo : RepoState := { projects_cache := [], cache_timestamp := 0 }

/-- Embeds `OpenProjectRepository.get_projects`, with `time.time()` passed in
as `now` and the successful remote listing passed in as `remote`
(a remote failure raises and leaves the state unchanged; the claims
about the cache concern successful fetches).  Returns the result list,
the successor state, and the number of remote fetches performed by this
call (`0` or `1`).  The cache is served only when it is nonempty
(`if self._projects_cache and ...` — Python list truthiness) and the
timestamp is inside the window. -/
def get_projects (st : RepoState) (now : ℕ) (remote : List RawProject) :
    List Project × RepoState × ℕ :=
  if st.projects_cache ≠ [] ∧ now - st.cache_timestamp < CACHE_DURATION then
    (st.projects_cache, st, 0)
  else
    let projects := filterActive remote
    (projects, { projects_cache := projects, cache_timestamp := now }, 1)

/-! ### `ProjectSelectView.refresh_projects` (`ui/selects.py`) -/

/-- The pagination/selection state of a `ProjectSelectView`:
`self.projects`, `self.current_page`, `self.total_pages`.
`total_pages` is an integer because Python computes it with floor
division `(len - 1) // ITEMS_PER_PAGE + 1`, which is `0` on an empty
list. -/
structure ViewState where
  projects : List Project
  current_page : ℕ
  total_pages : ℤ
deriving DecidableEq

/-- Python `(len(projects) - 1) // ITEMS_PER_PAGE + 1` (floor
division). -/
def total_pages_of (n : ℕ) : ℤ := ((n : ℤ) - 1).fdiv ITEMS_PER_PAGE + 1

/-- Embeds `ProjectSelectView.refresh_projects` (the approval flow's "refresh"
button): re-queries `task_service.get_projects()` and resets the
pagination state (`current_page = 0`, `total_pages` recomputed).
Returns the new view state, the new repository state and the number of
remote fetches the refresh performed. -/
def refresh_projects (_v : ViewState) (st : RepoState) (now : ℕ)
    (remote : List RawProject) : ViewState × RepoState × ℕ :=
  let (ps, st', fetches) := get_projects st now remote
  ({ projects := ps, current_page := 0, total_pages := total_pages_of ps.length },
    st', fetches)

/-! ### `OpenProjectRepository.create_task`: the description body -/

/-- The `description_text` assembly of
`OpenProjectRepository.create_task` (lines 195–210): free-text
description followed by `"\n\n"`, then one line each for start date,
due date and version when truthy, then the requester line (defaulting
to `'Usuario'`) and the approver line (defaulting to `'Aprovador'`). -/
def description_text (t : TaskData) : String :=
  let base := t.descricao ++ "\n\n"
  let base := if t.data_inicio ≠ "" then base ++ "Data de início: " ++ t.data_inicio ++ "\n" else base
  let base := if t.data_fim ≠ "" then base ++ "Data de término: " ++ t.data_fim ++ "\n" else base
  let base := if pyTruthyOpt t.version_name then base ++ "Versão: " ++ t.version_name.getD "" ++ "\n" else base
  base ++ "Solicitado por: " ++ t.solicitante_nome.getD "Usuario" ++ "\n"
    ++ "Aprovado por: " ++ t.aprovador_nome.getD "Aprovador"

/-! ### `handle_approval` (`cogs/task_commands.py`) -/

/-- Outcome of `interaction.client.fetch_user(...)` inside
`handle_approval`. -/
inductive FetchUserResult where
  | ok
  | fail
deriving DecidableEq

/-- Outcome of `task_service.create_task(...)` inside
`handle_approval`. -/
inductive CreateTaskResult where
  | ok (task_id_op : ℕ)
  | fail
deriving DecidableEq

/-- Observable side effects of one `handle_approval` call, in program
order.  `remoteCreate` is the POST to the remote work-package endpoint;
every other constructor is a notification. -/
inductive ApprovalEffect where
  | notFoundMsg
  | fetchErrorMsg
  | processingMsg
  | remoteCreate (payload : TaskData)
  | requesterSuccess
  | approverSuccess
  | channelNotify
  | requesterInconsistency
  | approverInconsistency
  | requesterRejected
  | approverRejected
deriving DecidableEq

/-- Embeds `handle_approval(interaction, task_id, approved, reject_reason)`,
with the awaited collaborator outcomes passed in as parameters.
Control flow of the source: look the id up in the registry and stop at
a not-found message when absent; stop at an error message when the
requester lookup fails (the registry is left untouched); otherwise
perform the decision — on approval set `aprovador_nome`, issue the
remote create call and notify both parties of either the success or the
approved-but-not-created inconsistency; on rejection notify both
parties — and finally remove the entry from the registry. -/
def handle_approval (r : Registry) (task_id : String) (approved : Bool)
    (approver_name : String) (fetchUser : FetchUserResult)
    (createRes : CreateTaskResult) : Registry × List ApprovalEffect :=
  match get_pending_task r task_id with
  | none => (r, [.notFoundMsg])
  | some d0 =>
    match fetchUser with
    | .fail => (r, [.fetchErrorMsg])
    | .ok =>
      if approved then
        let d := { d0 with aprovador_nome := some approver_name }
        match createRes with
        | .ok _ =>
          (remove_pending_task r task_id,
            [.processingMsg, .remoteCreate d, .requesterSuccess, .approverSuccess,
              .channelNotify])
        | .fail =>
          (remove_pending_task r task_id,
            [.processingMsg, .remoteCreate d, .requesterInconsistency,
              .approverInconsistency])
      else
        (remove_pending_task r task_id, [.requesterRejected, .approverRejected])

/-! ### `TaskDetailsModal.on_submit` (`ui/modals.py`) -/

/-- The five text inputs of the task-details modal. -/
structure ModalInput where
  task_name : String := ""
  task_description : String := ""
  task_estimate : String := ""
  start_date : String := ""
  due_date : String := ""
deriving DecidableEq

/-- The `self.task_data` dict the select flow hands to the modal. -/
structure ModalCtx where
  project_id : Option String := none
  project_name : String := ""
  version_id : Option String := none
  version_name : Option String := none
deriving DecidableEq

/-- Observable side effects of one submit. -/
inductive SubmitEffect where
  | rejectedByPlatform
  | validationError (msg : String)
  | missingProjectError
  | approverDM
  | requesterConfirmation
deriving DecidableEq

/-- Embeds `TaskDetailsModal.on_submit`: validate the estimate format, the two
date formats and the date ordering; check the carried `project_id`;
only then consolidate the details, write them to the registry under
`f"{user.id}_{interaction.id}"` and notify the approver and the
requester.  Every failed check returns before the registry write. -/
def on_submit (inp : ModalInput) (ctx : ModalCtx) (r : Registry)
    (user_id : ℕ) (user_name : String) (approver_name : String)
    (interaction_id : ℕ) : Registry × List SubmitEffect :=
  if inp.task_estimate ≠ "" ∧ pyNumericStr inp.task_estimate = false then
    (r, [.validationError "estimativa"])
  else if validate_date inp.start_date = false then
    (r, [.validationError "data de início"])
  else if validate_date inp.due_date = false then
    (r, [.validationError "data de término"])
  else if (compare_dates inp.start_date inp.due_date).1 = false then
    (r, [.validationError (compare_dates inp.start_date inp.due_date).2])
  else if pyTruthyOpt ctx.project_id = false then
    (r, [.missingProjectError])
  else
    let details : TaskData :=
      { nome_da_tarefa := inp.task_name
        descricao := inp.task_description
        estimativa := inp.task_estimate
        data_inicio := inp.start_date
        data_fim := inp.due_date
        project_id := ctx.project_id.getD ""
        project_name := ctx.project_name
        solicitante_id := user_id
        solicitante_nome := some user_name
        analista_nome := approver_name
        version_id := ctx.version_id
        version_name := ctx.version_name }
    let task_id := s!"{user_id}_{interaction_id}"
    (add_pending_task r task_id details, [.approverDM, .requesterConfirmation])

/-- The Submit operation as seen from the platform: the modal declares
its title field with `required=True` (`ui/modals.py`, `task_name`), so
the platform refuses a submission with an empty title and `on_submit`
never runs for it; otherwise the submission is `on_submit`. -/
def submit_task (inp : ModalInput) (ctx : ModalCtx) (r : Registry)
    (user_id : ℕ) (user_name : String) (approver_name : String)
    (interaction_id : ℕ) : Registry × List SubmitEffect :=
  if inp.task_name = "" then (r, [.rejectedByPlatform])
  else on_submit inp ctx r user_id user_name approver_name interaction_id

/-! ### Interleaving model for concurrent `Decide` calls

`handle_approval` is a coroutine: every `await` is a suspension point
at which the event loop may run another `handle_approval` instance.
The decision-relevant phases of one instance are
`lookup` (`get_pending_task`, line 146 — after the initial awaited
`defer`), `act` (the awaited decision effects: `create_task` /
notifications) and `cleanup` (`remove_pending_task`, line 390); awaits
separate all three, so a scheduler may interleave two instances at
phase boundaries. -/

inductive DecidePhase where
  | lookup
  | act
  | cleanup
  | finished
deriving DecidableEq

/-- One in-flight `handle_approval` instance: its next phase and what
its registry lookup observed (`none` until the lookup ran). -/
structure DecideTask where
  phase : DecidePhase
  found : Option Bool
deriving DecidableEq

/-- Shared state of two racing `handle_approval` instances on the same
submission id: the registry, both instances, and the ordered record of
which instances performed the decision's effects (`true` for the first
instance, `false` for the second). -/
structure RaceState where
  registry : Registry
  t1 : DecideTask
  t2 : DecideTask
  acted : List Bool
deriving DecidableEq

/-- Both instances poised at their registry lookup. -/
def initRace (r : Registry) : RaceState :=
  { registry := r
    t1 := { phase := .lookup, found := none }
    t2 := { phase := .lookup, found := none }
    acted := [] }

/-- One atomic phase of one instance: the lookup observes the registry
and either proceeds or finishes with a not-found report; the act phase
performs the decision's effects; the cleanup phase removes the
entry. -/
def stepTask (reg : Registry) (task_id : String) (t : DecideTask) (who : Bool) :
    Registry × DecideTask × List Bool :=
  match t.phase with
  | .lookup =>
    match get_pending_task reg task_id with
    | some _ => (reg, { phase := .act, found := some true }, [])
    | none => (reg, { phase := .finished, found := some false }, [])
  | .act => (reg, { phase := .cleanup, found := t.found }, [who])
  | .cleanup => (remove_pending_task reg task_id, { phase := .finished, found := t.found }, [])
  | .finished => (reg, t, [])

/-- Run a cooperative schedule: each entry names the instance that runs
its next phase (`true` = first instance, `false` = second). -/
def runSchedule (task_id : String) : List Bool → RaceState → RaceState
  | [], s => s
  | true :: rest, s =>
    let (reg, t, a) := stepTask s.registry task_id s.t1 true
    runSchedule task_id rest
      { registry := reg, t1 := t, t2 := s.t2, acted := s.acted ++ a }
  | false :: rest, s =>
    let (reg, t, a) := stepTask s.registry task_id s.t2 false
    runSchedule task_id rest
      { registry := reg, t1 := s.t1, t2 := t, acted := s.acted ++ a }

/-! ### Claim-shaped specifications

These definitions follow the words of the specification (not the
source); they exist to be compared with the source-derived definitions
above. -/

/-- The description body as the specification describes it: the present
fields only — free-text description, start date, due date, version
name, requester display name, approver display name, in that order —
each on its own line, absent fields omitted entirely, no blank
placeholder lines. -/
def claimedDescription (t : TaskData) : String :=
  String.intercalate "\n"
    ((if t.descricao ≠ "" then [t.descricao] else []) ++
     (if t.data_inicio ≠ "" then ["Data de início: " ++ t.data_inicio] else []) ++
     (if t.data_fim ≠ "" then ["Data de término: " ++ t.data_fim] else []) ++
     (match t.version_name with
      | some v => ["Versão: " ++ v]
      | none => []) ++
     (match t.solicitante_nome with
      | some s => ["Solicitado por: " ++ s]
      | none => []) ++
     (match t.aprovador_nome with
      | some a => ["Aprovado por: " ++ a]
      | none => []))

/-- The lines the source actually produces (amended description): the
free-text description always followed by one blank separator line, the
optional date/version lines, and requester/approver lines that fall
back to the defaults `'Usuario'` / `'Aprovador'` instead of being
omitted. -/
def amendedDescriptionLines (t : TaskData) : List String :=
  [t.descricao, ""] ++
  (if t.data_inicio ≠ "" then ["Data de início: " ++ t.data_inicio] else []) ++
  (if t.data_fim ≠ "" then ["Data de término: " ++ t.data_fim] else []) ++
  (if pyTruthyOpt t.version_name then ["Versão: " ++ t.version_name.getD ""] else []) ++
  ["Solicitado por: " ++ t.solicitante_nome.getD "Usuario",
    "Aprovado por: " ++ t.aprovador_nome.getD "Aprovador"]

/-- The whole-hour part of a nonnegative duration. -/
def wholeHours (q : ℚ) : ℤ := ⌊q⌋

/-- The fractional-hour remainder converted to minutes and truncated
(rounded down). -/
def fracMinutes (q : ℚ) : ℤ := ⌊(q - (⌊q⌋ : ℚ)) * 60⌋

/-! ### Helper lemmas -/

theorem pytrunc_of_nonneg {q : ℚ} (h : 0 ≤ q) : pytrunc q = ⌊q⌋ := if_pos h

theorem pytrunc_of_neg {q : ℚ} (h : q < 0) : pytrunc q = -⌊-q⌋ := by
  rw [pytrunc, if_neg (not_le.2 h)]
  rw [show q = -(-q) by ring, Int.ceil_neg, neg_neg]

theorem formatHours_eq (q : ℚ) (h m : ℤ) (hq : pytrunc q = h)
    (hm : pytrunc ((q - h) * 60) = m) :
    formatHours q = if m > 0 then some s!"PT{h}H{m}M" else some s!"PT{h}H" := by
  simp only [formatHours, hq, hm]

theorem mem_removeFirstDot {c : Char} (hc : c ≠ '.') :
    ∀ {l : List Char}, c ∈ l → c ∈ removeFirstDot l := by
  intro l
  induction l with
  | nil => intro h; cases h
  | cons a rest ih =>
    intro h
    rw [removeFirstDot]
    by_cases ha : a = '.'
    · rw [if_pos ha]
      rcases List.mem_cons.1 h with h1 | h1
      · exact absurd (h1.trans ha) hc
      · exact h1
    · rw [if_neg ha]
      rcases List.mem_cons.1 h with h1 | h1
      · exact h1 ▸ List.mem_cons_self a _
      · exact List.mem_cons_of_mem a (ih h1)

theorem minus_not_numeric {s : String} (h : '-' ∈ s.toList) :
    pyNumericStr s = false := by
  have hmem : '-' ∈ removeFirstDot s.toList :=
    mem_removeFirstDot (by decide) h
  rw [pyNumericStr]
  cases hall : (removeFirstDot s.toList).all Char.isDigit with
  | false => simp [hall]
  | true =>
    have := (List.all_eq_true.1 hall) '-' hmem
    simp at this

theorem parseDecimal_nonneg (s : String) : 0 ≤ parseDecimal s := by
  rw [parseDecimal]
  split
  · positivity
  · positivity
  · exact le_refl 0

theorem get_remove (r : Registry) (task_id : String) :
    get_pending_task (remove_pending_task r task_id) task_id = none := by
  have hfind : (remove_pending_task r task_id).find? (fun p => p.1 = task_id) = none := by
    rw [List.find?_eq_none]
    intro x hx
    have hmem := List.of_mem_filter hx
    simp only [ne_eq, decide_not] at hmem
    simpa using hmem
  rw [get_pending_task, hfind]

theorem get_add (r : Registry) (task_id : String) (d : TaskData) :
    get_pending_task (add_pending_task r task_id d) task_id = some d := by
  rw [add_pending_task]
  cases hany : r.any (fun p => p.1 = task_id) with
  | false =>
    rw [if_neg (by simp [hany])]
    induction r with
    | nil => simp [get_pending_task]
    | cons p rest ih =>
      rw [List.any_cons, Bool.or_eq_false_iff] at hany
      rw [List.cons_append, get_pending_task, List.find?_cons, hany.1]
      exact ih hany.2
  | true =>
    rw [if_pos (by simp [hany])]
    induction r with
    | nil => cases hany
    | cons p rest ih =>
      rw [List.any_cons, Bool.or_eq_true] at hany
      by_cases hp : p.1 = task_id
      · simp [get_pending_task, List.find?_cons, hp]
      · have hd : (decide (p.1 = task_id)) = false := by simpa using hp
        rw [List.map_cons, if_neg hp, get_pending_task, List.find?_cons, hd]
        rcases hany with h1 | h1
        · exact absurd (by simpa using h1) hp
        · exact ih h1

theorem length_add (r : Registry) (task_id : String) (d : TaskData) :
    (add_pending_task r task_id d).length =
      if r.any (fun p => p.1 = task_id) then r.length else r.length + 1 := by
  rw [add_pending_task]
  cases hany : r.any (fun p => p.1 = task_id) with
  | false => simp [hany]
  | true => simp [hany]

/-! ### Concrete sample data -/

/-- A sample pending submission. -/
def sampleTask : TaskData :=
  { nome_da_tarefa := "Relatorio"
    descricao := "desc"
    estimativa := "2.5"
    data_inicio := "01/05/2025"
    data_fim := "10/05/2025"
    project_id := "7"
    project_name := "Projeto X"
    solicitante_id := 1
    solicitante_nome := some "Alice"
    analista_nome := "Bob" }

/-- A second, distinct sample submission under the same id. -/
def sampleTask2 : TaskData := { sampleTask with nome_da_tarefa := "Outra" }

/-- A helper: `format_duration` on a string that fails the numeric
check returns `None` (both the empty string and the digit test lead to
the same early return). -/
theorem format_duration_str_none {s : String} (h : pyNumericStr s = false) :
    format_duration (.str s) = none := by
  by_cases hs : s = "" <;> simp [format_duration, hs, h]

/-! ### Claim C4 — `add` on an already-present id -/

/-- C4, counterexample: the claim says `add(id, submission)` fails when
the id is already present.  In the source, `add_pending_task` is a bare
dict assignment: with `"t1"` present and mapped to `sampleTask`, adding
`sampleTask2` under `"t1"` succeeds and silently overwrites the
existing entry (the registry keeps its size and the old value is
gone). -/
theorem claim_C4_counterexample :
    get_pending_task [("t1", sampleTask)] "t1" = some sampleTask ∧
    add_pending_task [("t1", sampleTask)] "t1" sampleTask2 = [("t1", sampleTask2)] ∧
    get_pending_task (add_pending_task [("t1", sampleTask)] "t1" sampleTask2) "t1"
      = some sampleTask2 ∧
    sampleTask2 ≠ sampleTask := by decide

/-- C4, amended: `add(id, submission)` always succeeds; when the id is
already present it overwrites the existing entry in place (and the
registry size is unchanged), otherwise it appends a new entry. -/
theorem claim_C4_amended (r : Registry) (task_id : String) (d : TaskData) :
    get_pending_task (add_pending_task r task_id d) task_id = some d ∧
    (add_pending_task r task_id d).length =
      if r.any (fun p => p.1 = task_id) then r.length else r.length + 1 :=
  ⟨get_add r task_id d, length_add r task_id d⟩

/-! ### Claim C8 — rejection of negative / non-numeric durations -/

/-- C8, counterexample: the claim says every negative input, decimal or
string, yields `None`.  For the negative decimal (non-string) value
`-2`, `format_duration` performs `int(-2) = -2`,
`int((-2 - -2) * 60) = 0`, skips the minutes segment and returns
`"PT-2H"`, not `None`. -/
theorem claim_C8_counterexample :
    format_duration (.num (-2)) = some "PT-2H" := by
  rw [format_duration, formatHours_eq (-2) (-2) 0 ?_ ?_]
  · decide
  · rw [pytrunc_of_neg (by norm_num)]; norm_num
  · rw [pytrunc_of_nonneg (by norm_num)]; norm_num

/-- C8, amended: every non-numeric *string* input and every negative
*string* input (any string containing `'-'` fails the digit check)
yields `None`; a negative decimal (non-string) value is not rejected —
it is formatted with components truncated toward zero, e.g.
`-2.5 ↦ "PT-2H"`. -/
theorem claim_C8_amended :
    (∀ s : String, pyNumericStr s = false → format_duration (.str s) = none) ∧
    (∀ s : String, '-' ∈ s.toList → format_duration (.str s) = none) ∧
    format_duration (.num (-5/2)) = some "PT-2H" := by
  refine ⟨fun s h => format_duration_str_none h,
    fun s h => format_duration_str_none (minus_not_numeric h), ?_⟩
  rw [format_duration, formatHours_eq (-5/2) (-2) (-30) ?_ ?_]
  · decide
  · rw [pytrunc_of_neg (by norm_num)]
    norm_num
  · rw [pytrunc_of_neg (by norm_num)]
    norm_num

/-- C8 witness: the amended theorem applied at the concrete non-numeric
string `"abc"` and the concrete negative string `"-3"`. -/
theorem claim_C8_amended_witness :
    format_duration (.str "abc") = none ∧ format_duration (.str "-3") = none :=
  ⟨claim_C8_amended.1 "abc" (by decide), claim_C8_amended.2.1 "-3" (by decide)⟩

/-! ### Claim C9 — formatting of nonnegative durations -/

/-- C9: for every nonnegative rational input, `format_duration` returns
`"PT{H}H{M}M"` where `H` is the whole-hour part and `M` the truncated
fractional-hour remainder in minutes, omitting the minutes segment when
`M` is zero; a numeric string behaves exactly like the number it
parses to (which is nonnegative); and the claim's concrete examples
hold: `2.5 ↦ "PT2H30M"`, `3 ↦ "PT3H"`. -/
theorem claim_C9 :
    (∀ q : ℚ, 0 ≤ q →
      format_duration (.num q) =
        some (if fracMinutes q = 0 then s!"PT{wholeHours q}H"
          else s!"PT{wholeHours q}H{fracMinutes q}M")) ∧
    (∀ s : String, pyNumericStr s = true →
      format_duration (.str s) = format_duration (.num (parseDecimal s)) ∧
        0 ≤ parseDecimal s) ∧
    format_duration (.num (5/2)) = some "PT2H30M" ∧
    format_duration (.num 3) = some "PT3H" := by
  refine ⟨?_, ?_, ?_, ?_⟩
  · intro q hq
    have hfrac : (0:ℚ) ≤ (q - (⌊q⌋ : ℚ)) * 60 :=
      mul_nonneg (sub_nonneg.2 (Int.floor_le q)) (by norm_num)
    have hq' : pytrunc q = wholeHours q := by
      rw [pytrunc_of_nonneg hq]; rfl
    have hm : pytrunc ((q - (wholeHours q : ℚ)) * 60) = fracMinutes q := by
      rw [wholeHours, pytrunc_of_nonneg hfrac]; rfl
    rw [format_duration, formatHours_eq q (wholeHours q) (fracMinutes q) hq' hm]
    have hm0 : 0 ≤ fracMinutes q := Int.floor_nonneg.2 hfrac
    rcases eq_or_lt_of_le hm0 with h0 | h0
    · rw [if_neg (by omega), if_pos h0.symm]
    · rw [if_pos h0, if_neg (by omega)]
  · intro s hnum
    have hs : s ≠ "" := by
      intro he
      rw [he] at hnum
      exact absurd hnum (by decide)
    refine ⟨?_, parseDecimal_nonneg s⟩
    simp [format_duration, hs, hnum]
  · rw [format_duration, formatHours_eq (5/2) 2 30 ?_ ?_]
    · decide
    · rw [pytrunc_of_nonneg (by norm_num)]; norm_num
    · rw [pytrunc_of_nonneg (by norm_num)]
      rw [show ((5:ℚ)/2 - ((2:ℤ) : ℚ)) * 60 = 30 by push_cast; ring]
      norm_num
  · rw [format_duration, formatHours_eq 3 3 0 ?_ ?_]
    · decide
    · rw [pytrunc_of_nonneg (by norm_num)]; norm_num
    · rw [pytrunc_of_nonneg (by norm_num)]
      rw [show ((3:ℚ) - ((3:ℤ) : ℚ)) * 60 = 0 by push_cast; ring]
      norm_num

/-- C9 witness: the universally quantified parts applied at the
concrete inputs `5/2` (the claim's `2.5`) and the numeric string
`"2.5"`. -/
theorem claim_C9_witness :
    format_duration (.num (5/2)) =
      some (if fracMinutes (5/2) = 0 then s!"PT{wholeHours (5/2)}H"
        else s!"PT{wholeHours (5/2)}H{fracMinutes (5/2)}M") ∧
    (format_duration (.str "2.5") = format_duration (.num (parseDecimal "2.5")) ∧
      0 ≤ parseDecimal "2.5") :=
  ⟨claim_C9.1 (5/2) (by norm_num), claim_C9.2.1 "2.5" (by decide)⟩

/-! ### Claim C2 — remote failure after an accepted approval -/

/-- C2: on an approve decision for a registered submission whose remote
create call fails, the entry is still removed (a subsequent lookup
yields none), both the requester and the approver are notified of the
approved-but-not-created inconsistency, and the remote call was issued
exactly once (not retried). -/
theorem claim_C2 (r : Registry) (task_id : String) (d : TaskData)
    (approver_name : String) (h : get_pending_task r task_id = some d) :
    get_pending_task
        (handle_approval r task_id true approver_name .ok .fail).1 task_id = none ∧
    ApprovalEffect.requesterInconsistency
        ∈ (handle_approval r task_id true approver_name .ok .fail).2 ∧
    ApprovalEffect.approverInconsistency
        ∈ (handle_approval r task_id true approver_name .ok .fail).2 ∧
    (handle_approval r task_id true approver_name .ok .fail).2.countP
        (fun e => match e with | .remoteCreate _ => true | _ => false) = 1 := by
  have he : handle_approval r task_id true approver_name .ok .fail =
      (remove_pending_task r task_id,
        [.processingMsg,
          .remoteCreate { d with aprovador_nome := some approver_name },
          .requesterInconsistency, .approverInconsistency]) := by
    rw [handle_approval, h]
    rfl
  rw [he]
  refine ⟨get_remove r task_id, ?_, ?_, ?_⟩
  · simp
  · simp
  · simp [List.countP_cons, List.countP_nil]

/-- C2 witness: the theorem applied at a concrete one-entry registry. -/
theorem claim_C2_witness :
    get_pending_task
        (handle_approval [("t1", sampleTask)] "t1" true "Bob" .ok .fail).1 "t1" = none ∧
    ApprovalEffect.requesterInconsistency
        ∈ (handle_approval [("t1", sampleTask)] "t1" true "Bob" .ok .fail).2 ∧
    ApprovalEffect.approverInconsistency
        ∈ (handle_approval [("t1", sampleTask)] "t1" true "Bob" .ok .fail).2 ∧
    (handle_approval [("t1", sampleTask)] "t1" true "Bob" .ok .fail).2.countP
        (fun e => match e with | .remoteCreate _ => true | _ => false) = 1 :=
  claim_C2 [("t1", sampleTask)] "t1" sampleTask "Bob" (by decide)

/-! ### Claim C10 — requester lookup failure aborts before any effect -/

/-- C10: when the requester lookup fails after the submission was found,
`handle_approval` returns with the registry unchanged and only the
lookup-error notification — no remote create call, no removal; and a
later Decide call on the same id still finds the entry and acts on it
(here: a rejection that reaches both notifications). -/
theorem claim_C10 (r : Registry) (task_id : String) (d : TaskData)
    (approved : Bool) (approver_name name2 : String)
    (createRes createRes2 : CreateTaskResult)
    (h : get_pending_task r task_id = some d) :
    handle_approval r task_id approved approver_name .fail createRes
      = (r, [.fetchErrorMsg]) ∧
    (handle_approval r task_id false name2 .ok createRes2).2
      = [.requesterRejected, .approverRejected] := by
  constructor
  · rw [handle_approval, h]
  · rw [handle_approval, h]
    rfl

/-- C10 witness: the theorem applied at a concrete one-entry
registry. -/
theorem claim_C10_witness :
    handle_approval [("t1", sampleTask)] "t1" true "Bob" .fail .fail
      = ([("t1", sampleTask)], [.fetchErrorMsg]) ∧
    (handle_approval [("t1", sampleTask)] "t1" false "Carol" .ok .fail).2
      = [.requesterRejected, .approverRejected] :=
  claim_C10 [("t1", sampleTask)] "t1" sampleTask true "Bob" "Carol" .fail .fail
    (by decide)

/-! ### Claim C1 — racing Decide calls on the same submission id -/

/-- C1, counterexample: the claim says that of two racing Decide calls
on the same id exactly one observes a present entry and acts.  In the
source, the registry lookup (line 146) and the removal (line 390) are
separated by awaited calls, so the scheduler can run both lookups
before either removal: under the interleaving
`[lookup₁, lookup₂, act₁, cleanup₁, act₂, cleanup₂]` both calls observe
a present entry and both perform the decision's effects — the
submission is double-executed. -/
theorem claim_C1_counterexample :
    (runSchedule "t1" [true, false, true, true, false, false]
        (initRace [("t1", sampleTask)])).acted = [true, false] ∧
    (runSchedule "t1" [true, false, true, true, false, false]
        (initRace [("t1", sampleTask)])).t1.found = some true ∧
    (runSchedule "t1" [true, false, true, true, false, false]
        (initRace [("t1", sampleTask)])).t2.found = some true := by decide

/-- C1, amended: the at-most-one-decision guarantee holds exactly when
the first call's removal precedes the second call's lookup — in
particular for sequential (non-interleaved) Decide calls: the first
observes the entry and acts, the second observes not-found and performs
no effect.  Interleaved calls may both act (see the counterexample). -/
theorem claim_C1_amended (r : Registry) (task_id : String) (d : TaskData)
    (h : get_pending_task r task_id = some d) :
    runSchedule task_id [true, true, true, false] (initRace r) =
      { registry := remove_pending_task r task_id
        t1 := { phase := .finished, found := some true }
        t2 := { phase := .finished, found := some false }
        acted := [true] } := by
  simp only [runSchedule, stepTask, initRace, h, get_remove, List.nil_append,
    List.append_nil]

/-- C1 witness: the amended theorem applied at a concrete one-entry
registry. -/
theorem claim_C1_amended_witness :
    runSchedule "t1" [true, true, true, false] (initRace [("t1", sampleTask)]) =
      { registry := remove_pending_task [("t1", sampleTask)] "t1"
        t1 := { phase := .finished, found := some true }
        t2 := { phase := .finished, found := some false }
        acted := [true] } :=
  claim_C1_amended [("t1", sampleTask)] "t1" sampleTask (by decide)

/-! ### Claim C7 — the built description body -/

/-- A submission with absent optional fields and an absent free-text
description, as the description builder receives it. -/
def sampleDescTask : TaskData :=
  { descricao := ""
    solicitante_nome := some "Alice"
    aprovador_nome := some "Bob" }

/-- C7, counterexample: the claim says absent fields are omitted
entirely and the body contains no blank placeholder lines.  With an
absent description, the source's `f"{description}\\n\\n"` still emits
the separator, so the body opens with two blank lines — it differs from
the claimed concatenation of present fields. -/
theorem claim_C7_counterexample :
    description_text sampleDescTask = "\n\nSolicitado por: Alice\nAprovado por: Bob" ∧
    claimedDescription sampleDescTask = "Solicitado por: Alice\nAprovado por: Bob" ∧
    (description_text sampleDescTask).toList.take 2 = ['\n', '\n'] ∧
    description_text sampleDescTask ≠ claimedDescription sampleDescTask := by decide

/-- C7, amended: the body is the fixed-order line sequence —
description, then a blank separator line, then start date / due date /
version name each only when present, then the requester and approver
lines, which are always present and fall back to the defaults
`'Usuario'` / `'Aprovador'` instead of being omitted. -/
theorem claim_C7_amended (t : TaskData) :
    description_text t = String.intercalate "\n" (amendedDescriptionLines t) := by
  simp only [description_text, amendedDescriptionLines]
  split_ifs
  · show _ = t.descricao ++ "\n" ++ "" ++ "\n" ++ ("Data de início: " ++ t.data_inicio) ++ "\n" ++ ("Data de término: " ++ t.data_fim) ++ "\n" ++ ("Versão: " ++ t.version_name.getD "") ++ "\n" ++ ("Solicitado por: " ++ t.solicitante_nome.getD "Usuario") ++ "\n" ++ ("Aprovado por: " ++ t.aprovador_nome.getD "Aprovador")
    simp [String.append_assoc]
    try rfl
  · show _ = t.descricao ++ "\n" ++ "" ++ "\n" ++ ("Data de término: " ++ t.data_fim) ++ "\n" ++ ("Versão: " ++ t.version_name.getD "") ++ "\n" ++ ("Solicitado por: " ++ t.solicitante_nome.getD "Usuario") ++ "\n" ++ ("Aprovado por: " ++ t.aprovador_nome.getD "Aprovador")
    simp [String.append_assoc]
    try rfl
  · show _ = t.descricao ++ "\n" ++ "" ++ "\n" ++ ("Data de início: " ++ t.data_inicio) ++ "\n" ++ ("Versão: " ++ t.version_name.getD "") ++ "\n" ++ ("Solicitado por: " ++ t.solicitante_nome.getD "Usuario") ++ "\n" ++ ("Aprovado por: " ++ t.aprovador_nome.getD "Aprovador")
    simp [String.append_assoc]
    try rfl
  · show _ = t.descricao ++ "\n" ++ "" ++ "\n" ++ ("Versão: " ++ t.version_name.getD "") ++ "\n" ++ ("Solicitado por: " ++ t.solicitante_nome.getD "Usuario") ++ "\n" ++ ("Aprovado por: " ++ t.aprovador_nome.getD "Aprovador")
    simp [String.append_assoc]
    try rfl
  · show _ = t.descricao ++ "\n" ++ "" ++ "\n" ++ ("Data de início: " ++ t.data_inicio) ++ "\n" ++ ("Data de término: " ++ t.data_fim) ++ "\n" ++ ("Solicitado por: " ++ t.solicitante_nome.getD "Usuario") ++ "\n" ++ ("Aprovado por: " ++ t.aprovador_nome.getD "Aprovador")
    simp [String.append_assoc]
    try rfl
  · show _ = t.descricao ++ "\n" ++ "" ++ "\n" ++ ("Data de término: " ++ t.data_fim) ++ "\n" ++ ("Solicitado por: " ++ t.solicitante_nome.getD "Usuario") ++ "\n" ++ ("Aprovado por: " ++ t.aprovador_nome.getD "Aprovador")
    simp [String.append_assoc]
    try rfl
  · show _ = t.descricao ++ "\n" ++ "" ++ "\n" ++ ("Data de início: " ++ t.data_inicio) ++ "\n" ++ ("Solicitado por: " ++ t.solicitante_nome.getD "Usuario") ++ "\n" ++ ("Aprovado por: " ++ t.aprovador_nome.getD "Aprovador")
    simp [String.append_assoc]
    try rfl
  · show _ = t.descricao ++ "\n" ++ "" ++ "\n" ++ ("Solicitado por: " ++ t.solicitante_nome.getD "Usuario") ++ "\n" ++ ("Aprovado por: " ++ t.aprovador_nome.getD "Aprovador")
    simp [String.append_assoc]
    try rfl

/-! ### Claim C5 — cache behaviour of `get_projects` -/

/-- A remote listing with no active project: its active-filtered result
is empty. -/
def inactiveRemote : List RawProject :=
  [{ id := 1, name := "p", identifier := "p", href := "", active := false }]

/-- C5, counterexample: the claim includes remote listings whose
active-filtered result is empty.  For such a listing the cache check
`if self._projects_cache and ...` treats the cached empty list as
absent, so the second call inside the window performs a remote fetch
again (`1`, not the claimed `0`). -/
theorem claim_C5_counterexample :
    get_projects freshRepo 0 inactiveRemote
      = ([], { projects_cache := [], cache_timestamp := 0 }, 1) ∧
    (get_projects { projects_cache := [], cache_timestamp := 0 } 10 inactiveRemote).2.2
      = 1 := by decide

/-- C5, amended: for a remote listing whose active-filtered result is
nonempty, the first call from a fresh process fetches exactly once and
returns the filtered list; any call inside the freshness window fetches
zero times and returns the cached list; the first call at or after the
window's end fetches exactly once more (and repopulates from the
current remote listing).  When the filtered result is empty, the cache
is treated as absent and every call fetches (see the
counterexample). -/
theorem claim_C5_amended (remote remote1 remote2 : List RawProject)
    (t0 t1 t2 : ℕ) (hne : filterActive remote ≠ [])
    (h1 : t1 - t0 < CACHE_DURATION) (h2 : CACHE_DURATION ≤ t2 - t0) :
    get_projects freshRepo t0 remote
      = (filterActive remote,
          { projects_cache := filterActive remote, cache_timestamp := t0 }, 1) ∧
    get_projects { projects_cache := filterActive remote, cache_timestamp := t0 }
        t1 remote1
      = (filterActive remote,
          { projects_cache := filterActive remote, cache_timestamp := t0 }, 0) ∧
    get_projects { projects_cache := filterActive remote, cache_timestamp := t0 }
        t2 remote2
      = (filterActive remote2,
          { projects_cache := filterActive remote2, cache_timestamp := t2 }, 1) := by
  refine ⟨?_, ?_, ?_⟩
  · rw [get_projects, if_neg (by simp [freshRepo])]
  · rw [get_projects, if_pos ⟨hne, h1⟩]
  · rw [get_projects, if_neg]
    rintro ⟨-, hlt⟩
    exact absurd hlt (not_lt.2 h2)

/-- A remote listing with one active project. -/
def activeRemote : List RawProject :=
  [{ id := 2, name := "New", identifier := "new", href := "", active := true }]

/-- C5 witness: the amended theorem applied at a concrete listing with
one active project and the times `0`, `10` and `3600`. -/
theorem claim_C5_amended_witness :
    get_projects freshRepo 0 activeRemote
      = (filterActive activeRemote,
          { projects_cache := filterActive activeRemote, cache_timestamp := 0 }, 1) ∧
    get_projects
        { projects_cache := filterActive activeRemote, cache_timestamp := 0 }
        10 inactiveRemote
      = (filterActive activeRemote,
          { projects_cache := filterActive activeRemote, cache_timestamp := 0 }, 0) ∧
    get_projects
        { projects_cache := filterActive activeRemote, cache_timestamp := 0 }
        3600 inactiveRemote
      = (filterActive inactiveRemote,
          { projects_cache := filterActive inactiveRemote, cache_timestamp := 3600 },
          1) :=
  claim_C5_amended activeRemote inactiveRemote inactiveRemote 0 10 3600
    (by decide) (by decide) (by decide)

/-! ### Claim C3 — the approval flow's "refresh" action -/

/-- The project record sitting in the cache in the C3 scenarios. -/
def cachedProject : Project :=
  { id := 1, name := "Cached", identifier := "cached", href := "" }

/-- C3, counterexample: the claim says a forced refresh always bypasses
and replaces the cached list.  In the source, `refresh_projects` simply
calls `task_service.get_projects()` again: with a fresh nonempty cache
the refresh performs zero remote fetches and serves the previously
cached list as authoritative — even though the remote listing now
differs. -/
theorem claim_C3_counterexample :
    refresh_projects
        { projects := [cachedProject], current_page := 3, total_pages := 1 }
        { projects_cache := [cachedProject], cache_timestamp := 1000 }
        1500 activeRemote
      = ({ projects := [cachedProject], current_page := 0, total_pages := 1 },
          { projects_cache := [cachedProject], cache_timestamp := 1000 }, 0) ∧
    filterActive activeRemote ≠ [cachedProject] := by decide

/-- C3, amended: the refresh action re-queries through the cached
read-through service — it serves the cached list (zero fetches) while
the cache is nonempty and fresh, and fetches and replaces it (one
fetch) only when the cache is empty or expired; in both cases the
pagination state is reset to the first page. -/
theorem claim_C3_amended (v : ViewState) (st : RepoState) (now : ℕ)
    (remote : List RawProject) :
    (st.projects_cache ≠ [] ∧ now - st.cache_timestamp < CACHE_DURATION →
      refresh_projects v st now remote
        = ({ projects := st.projects_cache, current_page := 0,
              total_pages := total_pages_of st.projects_cache.length }, st, 0)) ∧
    (st.projects_cache = [] ∨ CACHE_DURATION ≤ now - st.cache_timestamp →
      refresh_projects v st now remote
        = ({ projects := filterActive remote, current_page := 0,
              total_pages := total_pages_of (filterActive remote).length },
            { projects_cache := filterActive remote, cache_timestamp := now }, 1)) := by
  constructor
  · intro h
    rw [refresh_projects, get_projects, if_pos h]
  · intro h
    rw [refresh_projects, get_projects, if_neg]
    rintro ⟨hne, hlt⟩
    rcases h with h | h
    · exact hne h
    · exact absurd hlt (not_lt.2 h)

/-- C3 witness: the amended theorem applied with a fresh nonempty cache
(cache served, zero fetches) and with an empty cache (remote fetched
and cache replaced). -/
theorem claim_C3_amended_witness :
    refresh_projects
        { projects := [cachedProject], current_page := 2, total_pages := 1 }
        { projects_cache := [cachedProject], cache_timestamp := 0 }
        100 activeRemote
      = ({ projects := [cachedProject], current_page := 0,
            total_pages := total_pages_of ([cachedProject] : List Project).length },
          { projects_cache := [cachedProject], cache_timestamp := 0 }, 0) ∧
    refresh_projects
        { projects := [cachedProject], current_page := 2, total_pages := 1 }
        { projects_cache := [], cache_timestamp := 0 } 100 activeRemote
      = ({ projects := filterActive activeRemote, current_page := 0,
            total_pages := total_pages_of (filterActive activeRemote).length },
          { projects_cache := filterActive activeRemote, cache_timestamp := 100 },
          1) :=
  ⟨(claim_C3_amended
      { projects := [cachedProject], current_page := 2, total_pages := 1 }
      { projects_cache := [cachedProject], cache_timestamp := 0 } 100
      activeRemote).1 ⟨by decide, by decide⟩,
    (claim_C3_amended
      { projects := [cachedProject], current_page := 2, total_pages := 1 }
      { projects_cache := [], cache_timestamp := 0 } 100 activeRemote).2
      (Or.inl rfl)⟩

/-! ### Claim C6 — failed validation leaves the registry untouched -/

/-- C6: for every submission failing validation — empty title (refused
by the platform because the field is declared required), malformed
estimate, malformed start or due date, or end date before start date —
the Submit operation leaves the registry exactly as it was and sends
neither the approver notification nor the requester confirmation; in
the embedding the submit pipeline has no remote-call effect at all, so
no network call to the task API is made on any path. -/
theorem claim_C6 (inp : ModalInput) (ctx : ModalCtx) (r : Registry)
    (uid : ℕ) (uname aname : String) (iid : ℕ)
    (h : inp.task_name = ""
      ∨ (inp.task_estimate ≠ "" ∧ pyNumericStr inp.task_estimate = false)
      ∨ validate_date inp.start_date = false
      ∨ validate_date inp.due_date = false
      ∨ (compare_dates inp.start_date inp.due_date).1 = false) :
    (submit_task inp ctx r uid uname aname iid).1 = r ∧
    SubmitEffect.approverDM ∉ (submit_task inp ctx r uid uname aname iid).2 ∧
    SubmitEffect.requesterConfirmation
      ∉ (submit_task inp ctx r uid uname aname iid).2 := by
  rw [submit_task]
  by_cases ht : inp.task_name = ""
  · rw [if_pos ht]
    exact ⟨rfl, by simp, by simp⟩
  · rw [if_neg ht, on_submit]
    split_ifs with e1 e2 e3 e4 e5
    · exact ⟨rfl, by simp, by simp⟩
    · exact ⟨rfl, by simp, by simp⟩
    · exact ⟨rfl, by simp, by simp⟩
    · exact ⟨rfl, by simp, by simp⟩
    · exact ⟨rfl, by simp, by simp⟩
    · exfalso
      rcases h with h | h | h | h | h
      exacts [ht h, e1 h, e2 h, e3 h, e4 h]

/-- A modal input with a non-numeric estimate. -/
def sampleBadInput : ModalInput := { task_name := "Tarefa", task_estimate := "abc" }

/-- C6 witness: the theorem applied at a concrete submission with the
malformed estimate `"abc"` against a concrete one-entry registry. -/
theorem claim_C6_witness :
    (submit_task sampleBadInput {} [("t1", sampleTask)] 1 "Alice" "Bob" 42).1
      = [("t1", sampleTask)] ∧
    SubmitEffect.approverDM
      ∉ (submit_task sampleBadInput {} [("t1", sampleTask)] 1 "Alice" "Bob" 42).2 ∧
    SubmitEffect.requesterConfirmation
      ∉ (submit_task sampleBadInput {} [("t1", sampleTask)] 1 "Alice" "Bob" 42).2 :=
  claim_C6 sampleBadInput {} [("t1", sampleTask)] 1 "Alice" "Bob" 42
    (Or.inr (Or.inl ⟨by decide, by decide⟩))

end Botopen
